import Mathlib

/-!
Verification of the parameter-declaration constructor prototypes
(`src/prototypes/approach1_shared_types.py`, `approach2_hybrid.py`,
`approach3_internal_helpers.py`) against the natural-language design
specification.

The prototypes wrap the external `fastapi.params` kind classes: each public
constructor (Path, Query, Body, Header) accepts a fixed set of keyword
parameters with fixed defaults and forwards them to the underlying kind
class, producing a descriptor tagged with that kind.  Python values relevant
to the claims are embedded as the `Value` type (the `...` Ellipsis required
sentinel, the `Undefined` / `_Unset` sentinel, `None`, booleans, integers,
strings); the descriptor-validation pipeline that the specification assigns
to the Descriptor Validator is not part of the repository sources and is
modelled from the specification where a claim needs it.
-/

/-- The parameter kinds exposed by the prototypes. -/
inductive Kind where
  | path
  | query
  | body
  | header
deriving DecidableEq, Repr

/-- Python values relevant to the claims: `Value.required` embeds the `...`
Ellipsis sentinel used for required fields, `Value.undefined` embeds the
`Undefined` / `_Unset` sentinel from `fastapi._compat`, `Value.none` embeds
Python `None`; booleans, integers and strings cover every concrete value a
claim mentions. -/
inductive Value where
  | none
  | undefined
  | required
  | bool (b : Bool)
  | int (n : Int)
  | str (s : String)
deriving DecidableEq, Repr

/-- The error taxonomy of the specification (section 7) restricted to the
call-time errors the claims mention. -/
inductive BuildError where
  | unknownField (name : String)
  | missingRequired (name : String)
  | constraintViolation (name constraint : String)
  | conflictingFields (first second : String)
deriving DecidableEq, Repr

/-- The 28 shared parameters accepted (in this declaration order) by every
constructor of approach 1 and approach 3, plus the deprecated `**extra`
keyword bag.  Field names follow the Python parameter names; the Python
parameters `example`, `default` and `alias` are embedded as `exampleField`,
`defaultField` and `aliasField` because those names are Lean keywords or
commands. -/
structure CommonArgs where
  defaultField : Value
  default_factory : Value
  aliasField : Value
  alias_priority : Value
  validation_alias : Value
  serialization_alias : Value
  title : Value
  description : Value
  gt : Value
  ge : Value
  lt : Value
  le : Value
  min_length : Value
  max_length : Value
  pattern : Value
  regex : Value
  discriminator : Value
  strict : Value
  multiple_of : Value
  allow_inf_nan : Value
  max_digits : Value
  decimal_places : Value
  examples : Value
  exampleField : Value
  openapi_examples : Value
  deprecated : Value
  include_in_schema : Value
  json_schema_extra : Value
  extra : List (String × Value)
deriving DecidableEq, Repr

/-- Modelled from the spec: the ParameterDescriptor produced by the external
`fastapi.params` kind classes — the immutable record of concrete field
values, tagged with its kind, handed to the extraction/binding engine.  The
kind-exclusive fields (`embed`, `media_type` for Body; `convert_underscores`
for Header) are carried alongside the shared fields; kinds without a given
exclusive field leave it at the `undefined` sentinel. -/
structure Descriptor where
  kind : Kind
  common : CommonArgs
  embed : Value
  media_type : Value
  convert_underscores : Value
deriving DecidableEq, Repr

namespace params

/-- Modelled from the spec: the external `fastapi.params.Path` class, which
receives the forwarded keyword values and produces a Path-kind descriptor. -/
def Path (c : CommonArgs) : Descriptor :=
  { kind := Kind.path, common := c, embed := Value.undefined,
    media_type := Value.undefined, convert_underscores := Value.undefined }

/-- Modelled from the spec: the external `fastapi.params.Query` class. -/
def Query (c : CommonArgs) : Descriptor :=
  { kind := Kind.query, common := c, embed := Value.undefined,
    media_type := Value.undefined, convert_underscores := Value.undefined }

/-- Modelled from the spec: the external `fastapi.params.Body` class, which
additionally receives the Body-exclusive `embed` and `media_type` values. -/
def Body (embed media_type : Value) (c : CommonArgs) : Descriptor :=
  { kind := Kind.body, common := c, embed := embed,
    media_type := media_type, convert_underscores := Value.undefined }

end params

/-- The shared catalog field names in catalog-registration order: the order
of the shared type constants of `approach1_shared_types.py` (lines 28-307),
which is also the parameter order of the Path and Query signatures in
approaches 1 and 3. -/
def sharedFieldNames : List String :=
  ["default", "default_factory", "alias", "alias_priority",
   "validation_alias", "serialization_alias", "title", "description",
   "gt", "ge", "lt", "le", "min_length", "max_length", "pattern", "regex",
   "discriminator", "strict", "multiple_of", "allow_inf_nan", "max_digits",
   "decimal_places", "examples", "example", "openapi_examples",
   "deprecated", "include_in_schema", "json_schema_extra"]

namespace approach1

/-- Parameter names of `approach1_shared_types.Path`, in signature order
(lines 328-358). -/
def PathFields : List String :=
  ["default", "default_factory", "alias", "alias_priority",
   "validation_alias", "serialization_alias", "title", "description",
   "gt", "ge", "lt", "le", "min_length", "max_length", "pattern", "regex",
   "discriminator", "strict", "multiple_of", "allow_inf_nan", "max_digits",
   "decimal_places", "examples", "example", "openapi_examples",
   "deprecated", "include_in_schema", "json_schema_extra"]

/-- Parameter names of `approach1_shared_types.Query`, in signature order
(lines 414-444). -/
def QueryFields : List String :=
  ["default", "default_factory", "alias", "alias_priority",
   "validation_alias", "serialization_alias", "title", "description",
   "gt", "ge", "lt", "le", "min_length", "max_length", "pattern", "regex",
   "discriminator", "strict", "multiple_of", "allow_inf_nan", "max_digits",
   "decimal_places", "examples", "example", "openapi_examples",
   "deprecated", "include_in_schema", "json_schema_extra"]

/-- Parameter names of `approach1_shared_types.Body`, in signature order
(lines 479-528): the Body-exclusive `embed` and `media_type` are declared
right after `default_factory`, before the remaining shared fields. -/
def BodyFields : List String :=
  ["default", "default_factory", "embed", "media_type",
   "alias", "alias_priority",
   "validation_alias", "serialization_alias", "title", "description",
   "gt", "ge", "lt", "le", "min_length", "max_length", "pattern", "regex",
   "discriminator", "strict", "multiple_of", "allow_inf_nan", "max_digits",
   "decimal_places", "examples", "example", "openapi_examples",
   "deprecated", "include_in_schema", "json_schema_extra"]

/-- The signature defaults of `approach1_shared_types.Path` (lines 329-358):
`default` defaults to the Ellipsis required sentinel, the pydantic-flagged
parameters default to `_Unset`, `include_in_schema` to `True`, the rest to
`None`, and the `**extra` bag to empty. -/
def pathDefaults : CommonArgs :=
  { defaultField := Value.required, default_factory := Value.undefined,
    aliasField := Value.none, alias_priority := Value.undefined,
    validation_alias := Value.none, serialization_alias := Value.none,
    title := Value.none, description := Value.none,
    gt := Value.none, ge := Value.none, lt := Value.none, le := Value.none,
    min_length := Value.none, max_length := Value.none,
    pattern := Value.none, regex := Value.none,
    discriminator := Value.none, strict := Value.undefined,
    multiple_of := Value.undefined, allow_inf_nan := Value.undefined,
    max_digits := Value.undefined, decimal_places := Value.undefined,
    examples := Value.none, exampleField := Value.undefined,
    openapi_examples := Value.none, deprecated := Value.none,
    include_in_schema := Value.bool true, json_schema_extra := Value.none,
    extra := [] }

/-- The signature defaults of `approach1_shared_types.Query` (lines
415-444): identical to Path except `default`, which defaults to
`Undefined`. -/
def queryDefaults : CommonArgs :=
  { defaultField := Value.undefined, default_factory := Value.undefined,
    aliasField := Value.none, alias_priority := Value.undefined,
    validation_alias := Value.none, serialization_alias := Value.none,
    title := Value.none, description := Value.none,
    gt := Value.none, ge := Value.none, lt := Value.none, le := Value.none,
    min_length := Value.none, max_length := Value.none,
    pattern := Value.none, regex := Value.none,
    discriminator := Value.none, strict := Value.undefined,
    multiple_of := Value.undefined, allow_inf_nan := Value.undefined,
    max_digits := Value.undefined, decimal_places := Value.undefined,
    examples := Value.none, exampleField := Value.undefined,
    openapi_examples := Value.none, deprecated := Value.none,
    include_in_schema := Value.bool true, json_schema_extra := Value.none,
    extra := [] }

/-- The signature defaults of the shared parameters of
`approach1_shared_types.Body` (lines 480-528): identical to Query. -/
def bodyDefaults : CommonArgs :=
  { defaultField := Value.undefined, default_factory := Value.undefined,
    aliasField := Value.none, alias_priority := Value.undefined,
    validation_alias := Value.none, serialization_alias := Value.none,
    title := Value.none, description := Value.none,
    gt := Value.none, ge := Value.none, lt := Value.none, le := Value.none,
    min_length := Value.none, max_length := Value.none,
    pattern := Value.none, regex := Value.none,
    discriminator := Value.none, strict := Value.undefined,
    multiple_of := Value.undefined, allow_inf_nan := Value.undefined,
    max_digits := Value.undefined, decimal_places := Value.undefined,
    examples := Value.none, exampleField := Value.undefined,
    openapi_examples := Value.none, deprecated := Value.none,
    include_in_schema := Value.bool true, json_schema_extra := Value.none,
    extra := [] }

/-- Signature default of the Body-exclusive `embed` parameter
(`approach1_shared_types.py` line 493): `None`. -/
def bodyDefaultEmbed : Value := Value.none

/-- Signature default of the Body-exclusive `media_type` parameter
(`approach1_shared_types.py` line 501): `"application/json"`. -/
def bodyDefaultMediaType : Value := Value.str "application/json"

/-- `approach1_shared_types.Path`: forwards every parameter, keyword by
keyword, to `params.Path` (lines 381-411). -/
def Path (c : CommonArgs) : Descriptor :=
  params.Path
    { defaultField := c.defaultField, default_factory := c.default_factory,
      aliasField := c.aliasField, alias_priority := c.alias_priority,
      validation_alias := c.validation_alias,
      serialization_alias := c.serialization_alias,
      title := c.title, description := c.description,
      gt := c.gt, ge := c.ge, lt := c.lt, le := c.le,
      min_length := c.min_length, max_length := c.max_length,
      pattern := c.pattern, regex := c.regex,
      discriminator := c.discriminator, strict := c.strict,
      multiple_of := c.multiple_of, allow_inf_nan := c.allow_inf_nan,
      max_digits := c.max_digits, decimal_places := c.decimal_places,
      examples := c.examples, exampleField := c.exampleField,
      openapi_examples := c.openapi_examples, deprecated := c.deprecated,
      include_in_schema := c.include_in_schema,
      json_schema_extra := c.json_schema_extra, extra := c.extra }

/-- `approach1_shared_types.Query`: forwards every parameter, keyword by
keyword, to `params.Query` (lines 446-476). -/
def Query (c : CommonArgs) : Descriptor :=
  params.Query
    { defaultField := c.defaultField, default_factory := c.default_factory,
      aliasField := c.aliasField, alias_priority := c.alias_priority,
      validation_alias := c.validation_alias,
      serialization_alias := c.serialization_alias,
      title := c.title, description := c.description,
      gt := c.gt, ge := c.ge, lt := c.lt, le := c.le,
      min_length := c.min_length, max_length := c.max_length,
      pattern := c.pattern, regex := c.regex,
      discriminator := c.discriminator, strict := c.strict,
      multiple_of := c.multiple_of, allow_inf_nan := c.allow_inf_nan,
      max_digits := c.max_digits, decimal_places := c.decimal_places,
      examples := c.examples, exampleField := c.exampleField,
      openapi_examples := c.openapi_examples, deprecated := c.deprecated,
      include_in_schema := c.include_in_schema,
      json_schema_extra := c.json_schema_extra, extra := c.extra }

/-- `approach1_shared_types.Body`: forwards `embed`, `media_type` and every
shared parameter, keyword by keyword, to `params.Body` (lines 530-562). -/
def Body (embed media_type : Value) (c : CommonArgs) : Descriptor :=
  params.Body embed media_type
    { defaultField := c.defaultField, default_factory := c.default_factory,
      aliasField := c.aliasField, alias_priority := c.alias_priority,
      validation_alias := c.validation_alias,
      serialization_alias := c.serialization_alias,
      title := c.title, description := c.description,
      gt := c.gt, ge := c.ge, lt := c.lt, le := c.le,
      min_length := c.min_length, max_length := c.max_length,
      pattern := c.pattern, regex := c.regex,
      discriminator := c.discriminator, strict := c.strict,
      multiple_of := c.multiple_of, allow_inf_nan := c.allow_inf_nan,
      max_digits := c.max_digits, decimal_places := c.decimal_places,
      examples := c.examples, exampleField := c.exampleField,
      openapi_examples := c.openapi_examples, deprecated := c.deprecated,
      include_in_schema := c.include_in_schema,
      json_schema_extra := c.json_schema_extra, extra := c.extra }

end approach1

/-- A call into an underlying `fastapi.params` kind class as performed by
approach 2 (`approach2_hybrid.py`): the class receives the explicit
`default` (and, for Header, `convert_underscores`) plus an opaque keyword
bag, modelled as an association list.  Kinds without the
`convert_underscores` exclusive leave it at the `undefined` sentinel. -/
structure KwCall where
  kind : Kind
  defaultField : Value
  convert_underscores : Value
  kwargs : List (String × Value)
deriving DecidableEq, Repr

namespace approach2

/-- Explicit parameter names of `approach2_hybrid.Header` (lines 146-167);
all shared parameters other than `default` travel in the
`**common_params` bag. -/
def HeaderFields : List String := ["default", "convert_underscores"]

/-- Signature default of `approach2_hybrid.Path`'s `default` parameter
(line 94): the Ellipsis required sentinel. -/
def pathDefaultValue : Value := Value.required

/-- Signature default of `approach2_hybrid.Query`'s `default` parameter
(line 133): `Undefined`. -/
def queryDefaultValue : Value := Value.undefined

/-- Signature default of `approach2_hybrid.Header`'s `default` parameter
(line 154): `Undefined`. -/
def headerDefaultValue : Value := Value.undefined

/-- Signature default of the Header-exclusive `convert_underscores`
parameter (`approach2_hybrid.py` line 166): `True`. -/
def headerDefaultConvertUnderscores : Value := Value.bool true

/-- Modelled from the spec: Header's `include_in_schema` resolved default.
The Header constructor of approach 2 forwards `include_in_schema` inside the
keyword bag, so its default is resolved by the external
`fastapi.params.Header` class, which is not under src/; the specification
resolves `include_in_schema` to `True` for every kind. -/
def headerIncludeInSchemaDefault : Value := Value.bool true

/-- `approach2_hybrid._forward_common_params` (lines 67-75): simply returns
the keyword mapping; actual validation happens in the external params
classes. -/
def _forward_common_params (kwargs : List (String × Value)) :
    List (String × Value) := kwargs

/-- `approach2_hybrid.Path` (lines 83-122): forwards the processed keyword
bag to `fastapi.params.Path` together with the explicit `default`. -/
def Path (defaultField : Value) (common_params : List (String × Value)) :
    KwCall :=
  { kind := Kind.path, defaultField := defaultField,
    convert_underscores := Value.undefined,
    kwargs := _forward_common_params common_params }

/-- `approach2_hybrid.Query` (lines 125-143). -/
def Query (defaultField : Value) (common_params : List (String × Value)) :
    KwCall :=
  { kind := Kind.query, defaultField := defaultField,
    convert_underscores := Value.undefined,
    kwargs := _forward_common_params common_params }

/-- `approach2_hybrid.Header` (lines 146-181): forwards the processed
keyword bag to `fastapi.params.Header` together with the explicit `default`
and the Header-exclusive `convert_underscores`. -/
def Header (defaultField convert_underscores : Value)
    (common_params : List (String × Value)) : KwCall :=
  { kind := Kind.header, defaultField := defaultField,
    convert_underscores := convert_underscores,
    kwargs := _forward_common_params common_params }

end approach2

namespace approach3

/-- Parameter names of `approach3_internal_helpers.Body`, in signature order
(lines 468-549): as in approach 1, the Body-exclusive `embed` and
`media_type` are declared right after `default_factory`. -/
def BodyFields : List String :=
  ["default", "default_factory", "embed", "media_type",
   "alias", "alias_priority",
   "validation_alias", "serialization_alias", "title", "description",
   "gt", "ge", "lt", "le", "min_length", "max_length", "pattern", "regex",
   "discriminator", "strict", "multiple_of", "allow_inf_nan", "max_digits",
   "decimal_places", "examples", "example", "openapi_examples",
   "deprecated", "include_in_schema", "json_schema_extra"]

/-- `approach3_internal_helpers._build_param_kwargs` (lines 29-96): builds
the dictionary of all common parameters (modelled as a `CommonArgs` record)
for passing to the params classes.  Parameters appear in the source's
declaration order. -/
def _build_param_kwargs (defaultField default_factory aliasField
    alias_priority validation_alias serialization_alias title description
    gt ge lt le min_length max_length pattern regex discriminator strict
    multiple_of allow_inf_nan max_digits decimal_places examples
    exampleField openapi_examples deprecated include_in_schema
    json_schema_extra : Value) (extra : List (String × Value)) :
    CommonArgs :=
  { defaultField := defaultField, default_factory := default_factory,
    aliasField := aliasField, alias_priority := alias_priority,
    validation_alias := validation_alias,
    serialization_alias := serialization_alias,
    title := title, description := description,
    gt := gt, ge := ge, lt := lt, le := le,
    min_length := min_length, max_length := max_length,
    pattern := pattern, regex := regex,
    discriminator := discriminator, strict := strict,
    multiple_of := multiple_of, allow_inf_nan := allow_inf_nan,
    max_digits := max_digits, decimal_places := decimal_places,
    examples := examples, exampleField := exampleField,
    openapi_examples := openapi_examples, deprecated := deprecated,
    include_in_schema := include_in_schema,
    json_schema_extra := json_schema_extra, extra := extra }

/-- `approach3_internal_helpers.Path` (lines 251-367): builds the keyword
dictionary via `_build_param_kwargs` and passes it to `params.Path`. -/
def Path (c : CommonArgs) : Descriptor :=
  params.Path
    (_build_param_kwargs c.defaultField c.default_factory c.aliasField
      c.alias_priority c.validation_alias c.serialization_alias c.title
      c.description c.gt c.ge c.lt c.le c.min_length c.max_length c.pattern
      c.regex c.discriminator c.strict c.multiple_of c.allow_inf_nan
      c.max_digits c.decimal_places c.examples c.exampleField
      c.openapi_examples c.deprecated c.include_in_schema
      c.json_schema_extra c.extra)

/-- `approach3_internal_helpers.Query` (lines 370-465). -/
def Query (c : CommonArgs) : Descriptor :=
  params.Query
    (_build_param_kwargs c.defaultField c.default_factory c.aliasField
      c.alias_priority c.validation_alias c.serialization_alias c.title
      c.description c.gt c.ge c.lt c.le c.min_length c.max_length c.pattern
      c.regex c.discriminator c.strict c.multiple_of c.allow_inf_nan
      c.max_digits c.decimal_places c.examples c.exampleField
      c.openapi_examples c.deprecated c.include_in_schema
      c.json_schema_extra c.extra)

/-- `approach3_internal_helpers.Body` (lines 468-582): builds the common
keyword dictionary via `_build_param_kwargs` and passes it to `params.Body`
together with the Body-exclusive `embed` and `media_type`. -/
def Body (embed media_type : Value) (c : CommonArgs) : Descriptor :=
  params.Body embed media_type
    (_build_param_kwargs c.defaultField c.default_factory c.aliasField
      c.alias_priority c.validation_alias c.serialization_alias c.title
      c.description c.gt c.ge c.lt c.le c.min_length c.max_length c.pattern
      c.regex c.discriminator c.strict c.multiple_of c.allow_inf_nan
      c.max_digits c.decimal_places c.examples c.exampleField
      c.openapi_examples c.deprecated c.include_in_schema
      c.json_schema_extra c.extra)

end approach3

/-- The field-name surface of one kind's constructor, together with whether
the surface permits unknown keyword names to pass through into the
descriptor's extra bag.  Every constructor in the sources carries the
deprecated catch-all (`**extra` in approaches 1 and 3, `**common_params`
in approach 2), so every source schema permits passthrough. -/
structure Schema where
  fieldNames : List String
  allowsExtra : Bool
deriving DecidableEq, Repr

/-- The Path constructor surface of approach 1 (`approach1_shared_types.py`
lines 328-358); passthrough is permitted by the deprecated `**extra`
catch-all. -/
def pathSchema : Schema := { fieldNames := approach1.PathFields, allowsExtra := true }

/-- The Query constructor surface of approach 1 (lines 414-444). -/
def querySchema : Schema := { fieldNames := approach1.QueryFields, allowsExtra := true }

/-- The Body constructor surface of approach 1 (lines 479-528). -/
def bodySchema : Schema := { fieldNames := approach1.BodyFields, allowsExtra := true }

/-- The Header constructor surface of approach 2 (`approach2_hybrid.py`
lines 146-167); the `**common_params` bag forwards unknown names to the
underlying class, whose deprecated `**extra` catch-all accepts them. -/
def headerSchema : Schema := { fieldNames := approach2.HeaderFields, allowsExtra := true }

/-- Modelled from the spec: acceptance of keyword arguments by a generated
constructor surface (specification section 4.3).  Each supplied keyword is
routed to the declared fields when its name is one of the schema's field
names; an unknown name is accepted into the extra bag only when the schema
permits passthrough and otherwise fails with `UnknownFieldError`.  Returns
the declared-field assignments and the extra bag. -/
def acceptKwargs (s : Schema) :
    List (String × Value) →
    Except BuildError (List (String × Value) × List (String × Value))
  | [] => Except.ok ([], [])
  | (n, v) :: rest =>
    if n ∈ s.fieldNames then
      match acceptKwargs s rest with
      | Except.ok (kn, ex) => Except.ok ((n, v) :: kn, ex)
      | Except.error e => Except.error e
    else if s.allowsExtra then
      match acceptKwargs s rest with
      | Except.ok (kn, ex) => Except.ok (kn, (n, v) :: ex)
      | Except.error e => Except.error e
    else Except.error (BuildError.unknownField n)

/-- A resolved field specification as far as the claims need it: the field
id, its resolved default (`Value.required` marks a required field), and an
optional `gt` numeric constraint bound. -/
structure FieldSpec where
  id : String
  defaultValue : Value
  gtBound : Option Int
deriving DecidableEq, Repr

/-- Modelled from the spec: steps 1 and 2 of the Descriptor Validator
(specification section 4.4) for a single field.  The effective value is the
supplied one, or the resolved default when none is supplied; a required
field left at the required sentinel fails with `MissingRequiredFieldError`,
and a value violating the field's `gt` constraint fails with
`ConstraintViolationError` naming the field and the constraint. -/
def materializeValue (f : FieldSpec) (supplied : Option Value) :
    Except BuildError Value :=
  let v := supplied.getD f.defaultValue
  if v = Value.required then
    Except.error (BuildError.missingRequired f.id)
  else
    match f.gtBound with
    | some bound =>
      match v with
      | Value.int x =>
        if bound < x then Except.ok v
        else Except.error (BuildError.constraintViolation f.id "gt")
      | _ => Except.ok v
    | none => Except.ok v

/-- Modelled from the spec: steps 3 and 4 of the Descriptor Validator
(specification section 4.4) for the deprecated single-example field and its
multi-example replacement.  In the sources the deprecated `example`
parameter defaults to `_Unset` and `examples` defaults to `None`; setting
both to non-default values fails with `ConflictingFieldError`, and setting
only the deprecated one records a single non-fatal deprecation notice. -/
def checkExamples (exampleValue examplesValue : Value) :
    Except BuildError (List String) :=
  if exampleValue ≠ Value.undefined ∧ examplesValue ≠ Value.none then
    Except.error (BuildError.conflictingFields "example" "examples")
  else if exampleValue ≠ Value.undefined then
    Except.ok ["example is deprecated, use examples instead"]
  else
    Except.ok []

/-- C1: for every parameter-kind constructor surface, a call supplying a
keyword argument whose name is not a field of that kind's schema is accepted
into the descriptor's extra bag only if the schema permits passthrough, and
otherwise fails with `UnknownFieldError`; every kind schema of the sources
(Path, Query, Body, Header) permits passthrough via the deprecated
catch-all. -/
theorem C1_unknown_field_passthrough (s : Schema) (n : String) (v : Value)
    (rest : List (String × Value)) (h : n ∉ s.fieldNames) :
    (s.allowsExtra = false →
      acceptKwargs s ((n, v) :: rest) =
        Except.error (BuildError.unknownField n)) ∧
    (∀ kn ex, acceptKwargs s ((n, v) :: rest) = Except.ok (kn, ex) →
      s.allowsExtra = true ∧ (n, v) ∈ ex) ∧
    pathSchema.allowsExtra = true ∧ querySchema.allowsExtra = true ∧
    bodySchema.allowsExtra = true ∧ headerSchema.allowsExtra = true := by
  refine ⟨?_, ?_, rfl, rfl, rfl, rfl⟩
  · intro hfalse
    unfold acceptKwargs
    rw [if_neg h, if_neg (by simp [hfalse])]
  · intro kn ex hok
    by_cases hx : s.allowsExtra = true
    · refine ⟨hx, ?_⟩
      unfold acceptKwargs at hok
      rw [if_neg h, if_pos hx] at hok
      cases hrec : acceptKwargs s rest with
      | ok p =>
        rw [hrec] at hok
        obtain ⟨kn2, ex2⟩ := p
        simp only [Except.ok.injEq, Prod.mk.injEq] at hok
        rw [← hok.2]
        exact List.mem_cons_self _ _
      | error e =>
        rw [hrec] at hok
        exact absurd hok (by simp)
    · exfalso
      unfold acceptKwargs at hok
      rw [if_neg h, if_neg hx] at hok
      exact absurd hok (by simp)

/-- Concrete instance of C1: the misspelled keyword name "tittle" is not a
field of the Path schema, and the passthrough discipline holds for it. -/
theorem C1_unknown_field_passthrough_witness :
    "tittle" ∉ pathSchema.fieldNames ∧
    ((pathSchema.allowsExtra = false →
      acceptKwargs pathSchema [("tittle", Value.int 1)] =
        Except.error (BuildError.unknownField "tittle")) ∧
    (∀ kn ex,
      acceptKwargs pathSchema [("tittle", Value.int 1)] = Except.ok (kn, ex) →
      pathSchema.allowsExtra = true ∧ ("tittle", Value.int 1) ∈ ex) ∧
    pathSchema.allowsExtra = true ∧ querySchema.allowsExtra = true ∧
    bodySchema.allowsExtra = true ∧ headerSchema.allowsExtra = true) :=
  ⟨by decide,
   C1_unknown_field_passthrough pathSchema "tittle" (Value.int 1) []
     (by decide)⟩

/-- C2: in the code, Path's `default` parameter defaults to the required
sentinel `...` whereas Query's defaults to `Undefined` (approaches 1 and 2);
materializing a Path-kind descriptor with no value supplied for a field
whose default is the required sentinel fails with
`MissingRequiredFieldError`, while the Query-kind counterpart of the same
field succeeds using the catalog default. -/
theorem C2_path_required_query_optional :
    approach1.pathDefaults.defaultField = Value.required ∧
    approach1.queryDefaults.defaultField = Value.undefined ∧
    approach2.pathDefaultValue = Value.required ∧
    approach2.queryDefaultValue = Value.undefined ∧
    materializeValue
      { id := "item_id", defaultValue := approach1.pathDefaults.defaultField,
        gtBound := Option.none } Option.none =
      Except.error (BuildError.missingRequired "item_id") ∧
    materializeValue
      { id := "item_id", defaultValue := approach1.queryDefaults.defaultField,
        gtBound := Option.none } Option.none =
      Except.ok Value.undefined :=
  ⟨rfl, rfl, rfl, rfl, rfl, rfl⟩

/-- C3: every constructor invocation of every approach is deterministic —
two calls with structurally equal argument values produce structurally equal
descriptors (the shallow embedding is a pure function, so the call has no
side effects and performs no I/O). -/
theorem C3_constructors_deterministic (a b : CommonArgs) (e m d cu : Value)
    (bag1 bag2 : List (String × Value)) (h : a = b) (hbag : bag1 = bag2) :
    approach1.Path a = approach1.Path b ∧
    approach1.Query a = approach1.Query b ∧
    approach1.Body e m a = approach1.Body e m b ∧
    approach3.Path a = approach3.Path b ∧
    approach3.Query a = approach3.Query b ∧
    approach3.Body e m a = approach3.Body e m b ∧
    approach2.Path d bag1 = approach2.Path d bag2 ∧
    approach2.Query d bag1 = approach2.Query d bag2 ∧
    approach2.Header d cu bag1 = approach2.Header d cu bag2 := by
  subst h
  subst hbag
  exact ⟨rfl, rfl, rfl, rfl, rfl, rfl, rfl, rfl, rfl⟩

/-- Concrete instance of C3 at the Path defaults and an empty keyword bag. -/
theorem C3_constructors_deterministic_witness :
    approach1.pathDefaults = approach1.pathDefaults ∧
    ([] : List (String × Value)) = [] ∧
    (approach1.Path approach1.pathDefaults =
        approach1.Path approach1.pathDefaults ∧
      approach1.Query approach1.pathDefaults =
        approach1.Query approach1.pathDefaults ∧
      approach1.Body Value.none (Value.str "application/json")
          approach1.pathDefaults =
        approach1.Body Value.none (Value.str "application/json")
          approach1.pathDefaults ∧
      approach3.Path approach1.pathDefaults =
        approach3.Path approach1.pathDefaults ∧
      approach3.Query approach1.pathDefaults =
        approach3.Query approach1.pathDefaults ∧
      approach3.Body Value.none (Value.str "application/json")
          approach1.pathDefaults =
        approach3.Body Value.none (Value.str "application/json")
          approach1.pathDefaults ∧
      approach2.Path Value.required [] = approach2.Path Value.required [] ∧
      approach2.Query Value.required [] = approach2.Query Value.required [] ∧
      approach2.Header Value.required (Value.bool true) [] =
        approach2.Header Value.required (Value.bool true) []) :=
  ⟨rfl, rfl,
   C3_constructors_deterministic approach1.pathDefaults approach1.pathDefaults
     Value.none (Value.str "application/json") Value.required
     (Value.bool true) [] [] rfl rfl⟩

/-- C4: setting both the deprecated single-example field and its
multi-example replacement to non-default values fails with
`ConflictingFieldError`; setting only `examples` succeeds with no
deprecation notice; setting only `example` succeeds and records exactly one
deprecation notice (reported, never fatal).  In every kind signature of
approach 1 the deprecated `example` defaults to `_Unset` and `examples`
defaults to `None`. -/
theorem C4_example_examples_conflict (ve vs : Value)
    (hv : ve ≠ Value.undefined) (hs : vs ≠ Value.none) :
    checkExamples ve vs =
      Except.error (BuildError.conflictingFields "example" "examples") ∧
    (∀ w, checkExamples Value.undefined w = Except.ok []) ∧
    checkExamples ve Value.none =
      Except.ok ["example is deprecated, use examples instead"] ∧
    approach1.pathDefaults.exampleField = Value.undefined ∧
    approach1.pathDefaults.examples = Value.none ∧
    approach1.queryDefaults.exampleField = Value.undefined ∧
    approach1.queryDefaults.examples = Value.none ∧
    approach1.bodyDefaults.exampleField = Value.undefined ∧
    approach1.bodyDefaults.examples = Value.none := by
  refine ⟨?_, ?_, ?_, rfl, rfl, rfl, rfl, rfl, rfl⟩
  · unfold checkExamples
    rw [if_pos ⟨hv, hs⟩]
  · intro w
    unfold checkExamples
    rw [if_neg (fun hc => hc.1 rfl), if_neg (fun hc => hc rfl)]
  · unfold checkExamples
    rw [if_neg (fun hc => hc.2 rfl), if_pos hv]

/-- Concrete instance of C4 with `example` set to 1 and `examples` set to
the string "xs". -/
theorem C4_example_examples_conflict_witness :
    Value.int 1 ≠ Value.undefined ∧
    Value.str "xs" ≠ Value.none ∧
    (checkExamples (Value.int 1) (Value.str "xs") =
      Except.error (BuildError.conflictingFields "example" "examples") ∧
    (∀ w, checkExamples Value.undefined w = Except.ok []) ∧
    checkExamples (Value.int 1) Value.none =
      Except.ok ["example is deprecated, use examples instead"] ∧
    approach1.pathDefaults.exampleField = Value.undefined ∧
    approach1.pathDefaults.examples = Value.none ∧
    approach1.queryDefaults.exampleField = Value.undefined ∧
    approach1.queryDefaults.examples = Value.none ∧
    approach1.bodyDefaults.exampleField = Value.undefined ∧
    approach1.bodyDefaults.examples = Value.none) :=
  ⟨by decide, by decide,
   C4_example_examples_conflict (Value.int 1) (Value.str "xs")
     (by decide) (by decide)⟩

/-- C5: materializing under constraint `gt = 0` with supplied value `-1`
fails with `ConstraintViolationError` naming the field and the `gt`
constraint, and with supplied value `5` succeeds; every kind constructor of
approach 1 accepts the `gt` field, with default `None`. -/
theorem C5_gt_constraint :
    materializeValue
      { id := "item_id", defaultValue := Value.undefined,
        gtBound := some 0 } (some (Value.int (-1))) =
      Except.error (BuildError.constraintViolation "item_id" "gt") ∧
    materializeValue
      { id := "item_id", defaultValue := Value.undefined,
        gtBound := some 0 } (some (Value.int 5)) =
      Except.ok (Value.int 5) ∧
    "gt" ∈ approach1.PathFields ∧
    "gt" ∈ approach1.QueryFields ∧
    "gt" ∈ approach1.BodyFields ∧
    "gt" ∈ approach3.BodyFields ∧
    approach1.pathDefaults.gt = Value.none ∧
    approach1.queryDefaults.gt = Value.none ∧
    approach1.bodyDefaults.gt = Value.none :=
  ⟨rfl, rfl, by decide, by decide, by decide, by decide, rfl, rfl, rfl⟩

/-- C6: for every kind, the field names accepted by that kind's constructor
are pairwise distinct, and no kind-exclusive field (`embed`, `media_type`,
`convert_underscores`) shares a name with any shared catalog field. -/
theorem C6_field_names_distinct :
    approach1.PathFields.Nodup ∧
    approach1.QueryFields.Nodup ∧
    approach1.BodyFields.Nodup ∧
    approach3.BodyFields.Nodup ∧
    approach2.HeaderFields.Nodup ∧
    (∀ n ∈ ["embed", "media_type", "convert_underscores"],
      n ∉ sharedFieldNames) := by
  decide

/-- Counterexample to C7 as stated: the Body constructor of approach 1 does
not list all shared catalog fields before the kind-exclusive fields — its
parameter order is not the shared catalog order followed by `embed` and
`media_type`. -/
theorem C7_counterexample :
    ¬ (approach1.BodyFields = sharedFieldNames ++ ["embed", "media_type"]) := by
  decide

/-- C7 (amended): the accepted fields appear in a deterministic order in
which the shared catalog fields keep their catalog-registration order
relative to one another and the kind-exclusive fields keep their declared
order relative to one another, but the exclusive fields are inserted
immediately after `default` and `default_factory` rather than after all
shared fields; Path and Query (no exclusives) list exactly the shared
catalog fields in catalog order. -/
theorem C7_field_order :
    approach1.PathFields = sharedFieldNames ∧
    approach1.QueryFields = sharedFieldNames ∧
    approach1.BodyFields =
      ["default", "default_factory", "embed", "media_type"] ++
        sharedFieldNames.drop 2 ∧
    approach3.BodyFields =
      ["default", "default_factory", "embed", "media_type"] ++
        sharedFieldNames.drop 2 ∧
    approach2.HeaderFields = ["default", "convert_underscores"] ∧
    List.Sublist sharedFieldNames approach1.BodyFields ∧
    List.Sublist ["embed", "media_type"] approach1.BodyFields := by
  refine ⟨rfl, rfl, rfl, rfl, rfl, ?_, ?_⟩ <;> decide

/-- C8: each constructor carries its schema's resolved defaults — Body's
`embed` defaults to `None` and `media_type` to "application/json", Header's
`convert_underscores` defaults to `True`, and `include_in_schema` defaults
to `True` for every kind — and every constructor returns a descriptor tagged
with that constructor's kind. -/
theorem C8_defaults_and_kind_tags :
    approach1.bodyDefaultEmbed = Value.none ∧
    approach1.bodyDefaultMediaType = Value.str "application/json" ∧
    approach2.headerDefaultConvertUnderscores = Value.bool true ∧
    approach1.pathDefaults.include_in_schema = Value.bool true ∧
    approach1.queryDefaults.include_in_schema = Value.bool true ∧
    approach1.bodyDefaults.include_in_schema = Value.bool true ∧
    approach2.headerIncludeInSchemaDefault = Value.bool true ∧
    (∀ c : CommonArgs, (approach1.Path c).kind = Kind.path) ∧
    (∀ c : CommonArgs, (approach1.Query c).kind = Kind.query) ∧
    (∀ (e m : Value) (c : CommonArgs),
      (approach1.Body e m c).kind = Kind.body) ∧
    (∀ c : CommonArgs, (approach3.Path c).kind = Kind.path) ∧
    (∀ c : CommonArgs, (approach3.Query c).kind = Kind.query) ∧
    (∀ (e m : Value) (c : CommonArgs),
      (approach3.Body e m c).kind = Kind.body) ∧
    (∀ (d : Value) (bag : List (String × Value)),
      (approach2.Path d bag).kind = Kind.path) ∧
    (∀ (d : Value) (bag : List (String × Value)),
      (approach2.Query d bag).kind = Kind.query) ∧
    (∀ (d cu : Value) (bag : List (String × Value)),
      (approach2.Header d cu bag).kind = Kind.header) :=
  ⟨rfl, rfl, rfl, rfl, rfl, rfl, rfl,
   fun _ => rfl, fun _ => rfl, fun _ _ _ => rfl,
   fun _ => rfl, fun _ => rfl, fun _ _ _ => rfl,
   fun _ _ => rfl, fun _ _ => rfl, fun _ _ _ => rfl⟩

/-- C9: for each kind implemented in both approach 1 and approach 3 (Path,
Query, Body), the two constructors are extensionally equal — for every
assignment of argument values they produce descriptors of the same kind
carrying identical field values. -/
theorem C9_approach1_approach3_equivalent (c : CommonArgs) (e m : Value) :
    approach1.Path c = approach3.Path c ∧
    approach1.Query c = approach3.Query c ∧
    approach1.Body e m c = approach3.Body e m c :=
  ⟨rfl, rfl, rfl⟩

/-- C10: `_forward_common_params` is the identity on its keyword-argument
mapping, so approach 2's constructors forward common parameters verbatim to
the underlying kind class with no validation or normalization of their
own. -/
theorem C10_forward_common_params_identity :
    (∀ m : List (String × Value), approach2._forward_common_params m = m) ∧
    (∀ (d : Value) (m : List (String × Value)),
      (approach2.Path d m).kwargs = m) ∧
    (∀ (d : Value) (m : List (String × Value)),
      (approach2.Query d m).kwargs = m) ∧
    (∀ (d cu : Value) (m : List (String × Value)),
      (approach2.Header d cu m).kwargs = m) :=
  ⟨fun _ => rfl, fun _ _ => rfl, fun _ _ => rfl, fun _ _ _ => rfl⟩
